import Mathlib

/-!
Verification of the HALbridge sandboxed code-execution core.

Shallow embedding of `src/modules/code.py` (policy registry, environment
detection, preflight scanner, execution wrapper, process runner,
`run_snippet` / `run_file`) together with the resource-limit helper
`_preexec_resource_limits` / `run_python_script` of `src/gpt_chat_v3.py`.

Pure computations (regex scans, config deep-merge, result dictionaries)
are translated directly into Lean functions.  Effects (the config file on
disk, the host environment, the behaviour of the spawned child process,
the filesystem seen by `run_file`) are passed in explicitly as values, so
every function here is executable and every branch of the Python source
corresponds to a branch of the Lean definition.  Leading underscores of
Python names are dropped (Lean reserves identifiers beginning with an
underscore); otherwise names follow the source.
-/

namespace HalBridge

/-! ### Character classes of the Python `re` module (ASCII fragment)

`preflight_check` matches the patterns `\b(import|from)\s+M\b` and
`C\s*\(` against each line.  We model the character classes `\s` and `\w`
over the characters that actually occur in program text; `\w` is modelled
on the ASCII fragment (alphanumerics and underscore). -/

/-- Python `\s` (whitespace) on the ASCII range plus the common Unicode
space characters recognised by `str` patterns. -/
def pyIsSpace (c : Char) : Bool :=
  c == ' ' || c == '\t' || c == '\n' || c == '\x0d' ||
  c == Char.ofNat 0x0b || c == Char.ofNat 0x0c ||
  c == Char.ofNat 0x1c || c == Char.ofNat 0x1d ||
  c == Char.ofNat 0x1e || c == Char.ofNat 0x1f ||
  c == Char.ofNat 0x85 || c == Char.ofNat 0xa0 ||
  c == Char.ofNat 0x1680 || c == Char.ofNat 0x2028 || c == Char.ofNat 0x2029 ||
  c == Char.ofNat 0x202f || c == Char.ofNat 0x205f || c == Char.ofNat 0x3000

/-- Python `\w` (word character), ASCII fragment: letters, digits, underscore. -/
def isWordChar (c : Char) : Bool :=
  c.isAlphanum || c == '_'

/-- Whether the character at index `i` of `s` exists and is a word character
(out-of-range counts as non-word, as at the edges of a regex subject). -/
def wordAt (s : List Char) (i : Nat) : Bool :=
  (s[i]?.map isWordChar).getD false

/-- Word-character status of the character just before position `p`
(non-word at the left edge). -/
def prevWordAt (s : List Char) (p : Nat) : Bool :=
  match p with
  | 0 => false
  | q + 1 => wordAt s q

/-- Regex `\b` at position `p` (a position sits between characters `p-1`
and `p`): exactly one side is a word character. -/
def boundary (s : List Char) (p : Nat) : Bool :=
  prevWordAt s p != wordAt s p

/-- The literal `pat` occurs in `s` starting at index `i`. -/
def startsWithAt (s : List Char) (i : Nat) (pat : List Char) : Bool :=
  decide ((s.drop i).take pat.length = pat)

/-- Characters `i, …, i+n-1` of `s` all exist and satisfy `pyIsSpace`. -/
def allSpacesAt (s : List Char) (i n : Nat) : Bool :=
  decide (i + n ≤ s.length) && ((s.drop i).take n).all pyIsSpace

/-- A match of `\b(import|from)\s+M\b` begins at position `i` of `s`
(`M` the literal module name, as `re.escape` renders it literal). -/
def importHitAt (s : List Char) (i : Nat) (m : List Char) : Bool :=
  boundary s i &&
  (["import".data, "from".data].any fun kw =>
    startsWithAt s i kw &&
    ((List.range (s.length + 1)).any fun n =>
      decide (1 ≤ n) &&
      allSpacesAt s (i + kw.length) n &&
      startsWithAt s (i + kw.length + n) m &&
      boundary s (i + kw.length + n + m.length)))

/-- `re.search(rf"\b(import|from)\s+{re.escape(m)}\b", L)` succeeds. -/
def importHit (s m : List Char) : Bool :=
  (List.range (s.length + 1)).any fun i => importHitAt s i m

/-- A match of `C\s*\(` begins at index `i` of `s`. -/
def callHitAt (s : List Char) (i : Nat) (c : List Char) : Bool :=
  startsWithAt s i c &&
  ((List.range (s.length + 1)).any fun n =>
    allSpacesAt s (i + c.length) n &&
    startsWithAt s (i + c.length + n) ['('])

/-- `re.search(rf"{re.escape(c)}\s*\(", L)` succeeds. -/
def callHit (s c : List Char) : Bool :=
  (List.range (s.length + 1)).any fun i => callHitAt s i c

/-- The literal `pat` occurs somewhere in `s` (substring containment). -/
def sublistAt (pat s : List Char) : Bool :=
  (List.range (s.length + 1)).any fun i => startsWithAt s i pat

/-! ### Python `str.splitlines` and small list helpers -/

/-- Line-break characters recognised by `str.splitlines`. -/
def isLineBreakChar (c : Char) : Bool :=
  c == '\n' || c == '\x0d' ||
  c == Char.ofNat 0x0b || c == Char.ofNat 0x0c ||
  c == Char.ofNat 0x1c || c == Char.ofNat 0x1d ||
  c == Char.ofNat 0x1e || c == Char.ofNat 0x85 ||
  c == Char.ofNat 0x2028 || c == Char.ofNat 0x2029

/-- Worker for `pySplitlines`; `acc` is the current line, reversed. -/
def splitlinesAux : List Char → List Char → List (List Char)
  | [], acc => if acc.isEmpty then [] else [acc.reverse]
  | '\x0d' :: '\n' :: rest, acc => acc.reverse :: splitlinesAux rest []
  | c :: rest, acc =>
    if isLineBreakChar c then acc.reverse :: splitlinesAux rest []
    else splitlinesAux rest (c :: acc)

/-- Python `str.splitlines()`: split at line breaks (treating `\r\n` as a
single break), no trailing empty line for a terminal break. -/
def pySplitlines (s : List Char) : List (List Char) :=
  splitlinesAux s []

/-- Python `enumerate(lines, n)`. -/
def enumFrom1 : Nat → List (List Char) → List (Nat × List Char)
  | _, [] => []
  | n, L :: Ls => (n, L) :: enumFrom1 (n + 1) Ls

/-- Concatenation of the images of `f`, as the nested `for` loops of
`preflight_check` accumulate them. -/
def concatMap (f : α → List β) : List α → List β
  | [] => []
  | a :: l => f a ++ concatMap f l

/-- Python `"\n".join(findings)`. -/
def joinLines : List String → String
  | [] => ""
  | [x] => x
  | x :: y :: xs => x ++ "\n" ++ joinLines (y :: xs)

/-- ASCII apostrophe, used inside the violation messages. -/
def sq : String := String.mk [Char.ofNat 39]

/-! ### JSON values and `_load_cfg`'s deep merge -/

/-- JSON-like values as produced by `json.loads`.  Objects are ordered
association lists, mirroring Python dict insertion order. -/
inductive Json where
  | null : Json
  | bool (b : Bool) : Json
  | num (n : Int) : Json
  | str (s : String) : Json
  | arr (xs : List Json) : Json
  | obj (kvs : List (String × Json)) : Json

/-- Dict lookup `d.get(k)` on an object's pair list (first binding wins,
as keys of a parsed JSON object are unique). -/
def lookupJ (kvs : List (String × Json)) (k : String) : Option Json :=
  match kvs with
  | [] => none
  | (k', v) :: rest => if k' = k then some v else lookupJ rest k

/-- Dict assignment `d[k] = v`: replace the binding in place if the key
exists, otherwise append it (Python dict update order). -/
def setKey (kvs : List (String × Json)) (k : String) (v : Json) :
    List (String × Json) :=
  match kvs with
  | [] => [(k, v)]
  | (k', v') :: rest =>
    if k' = k then (k', v) :: rest else (k', v') :: setKey rest k v

mutual
/-- Value-level step of `deep_merge`: what ends up at a key that `src`
sets to `v`, given the old value at that key — recurse when both sides
are dicts (Python merges `dst[k]` in place, which has the same effect),
else overwrite with `v`. -/
def mergeVal (old : Option Json) : Json → Json
  | Json.obj s =>
    match old with
    | some (Json.obj w) => Json.obj (deepMergePairs w s)
    | _ => Json.obj s
  | v => v

/-- The recursive `deep_merge(dst, src)` of `_load_cfg`, on the pair
lists of the two dicts: for each `k, v` in `src` in order, update `k`. -/
def deepMergePairs (dst : List (String × Json)) :
    List (String × Json) → List (String × Json)
  | [] => dst
  | (k, v) :: rest =>
    deepMergePairs (setKey dst k (mergeVal (lookupJ dst k) v)) rest
end

/-- `DEFAULT_CFG` of `modules/code.py`, as the pair list of its JSON object. -/
def DEFAULT_CFG_pairs : List (String × Json) :=
  [("exec_timeout_sec", Json.num 8),
   ("gen_timeout_sec", Json.num 20),
   ("token_budget", Json.num 2000),
   ("profile", Json.str "headless"),
   ("policy_overrides", Json.obj
     [("headless", Json.obj
        [("blocked_imports", Json.arr
           [Json.str "matplotlib", Json.str "tkinter", Json.str "pygame",
            Json.str "requests", Json.str "socket"]),
         ("blocked_calls", Json.arr [Json.str "os.system"])]),
      ("iot", Json.obj
        [("blocked_imports", Json.arr
           [Json.str "matplotlib", Json.str "tkinter", Json.str "pygame",
            Json.str "requests", Json.str "socket"]),
         ("blocked_calls", Json.arr [Json.str "os.system"])]),
      ("analysis", Json.obj
        [("blocked_imports", Json.arr
           [Json.str "tkinter", Json.str "pygame", Json.str "socket"]),
         ("blocked_calls", Json.arr [Json.str "os.system"])])])]

def DEFAULT_CFG : Json := Json.obj DEFAULT_CFG_pairs

/-- The three states the persisted config file can be in when `_load_cfg`
runs: absent, present but unparsable (`json.loads` raises), or parsed. -/
inductive CfgFile where
  | missing : CfgFile
  | malformed : CfgFile
  | parsed (data : Json) : CfgFile

/-- Python truthiness of a JSON value (for the `data or {}` in `_load_cfg`). -/
def jsonTruthy : Json → Bool
  | .null => false
  | .bool b => b
  | .num n => n != 0
  | .str s => !s.isEmpty
  | .arr xs => !xs.isEmpty
  | .obj kvs => !kvs.isEmpty

/-- `data or {}`. -/
def orEmptyObj (j : Json) : Json :=
  if jsonTruthy j then j else Json.obj []

/-- The `try` body of `_load_cfg` after a successful parse:
`deep_merge(merged, data or {})` over a fresh copy of the defaults;
`.items()` on a non-dict raises (caught by the surrounding `except`). -/
def mergeData (j : Json) : Except String Json :=
  match orEmptyObj j with
  | Json.obj kvs => Except.ok (Json.obj (deepMergePairs DEFAULT_CFG_pairs kvs))
  | _ => Except.error "AttributeError"

/-- `_load_cfg`: the configuration returned to the caller.  Every branch
of the source ends in a `return`, so this function is total — no
exception reaches the caller. -/
def load_cfg : CfgFile → Json
  | .missing => DEFAULT_CFG
  | .malformed => DEFAULT_CFG
  | .parsed j =>
    match mergeData j with
    | .ok m => m
    | .error _ => DEFAULT_CFG

/-- The state of the config file after `_load_cfg` ran: a missing file is
written from the defaults, the others are left untouched. -/
def load_cfg_fileAfter : CfgFile → CfgFile
  | .missing => .parsed DEFAULT_CFG
  | f => f

/-- `cfg.get(k)` on the top-level config object. -/
def cfgGet (cfg : Json) (k : String) : Option Json :=
  match cfg with
  | .obj kvs => lookupJ kvs k
  | _ => none

/-- `cfg.get("profile", "headless")`.  Config `profile` values are
modelled as strings (a non-string value would fail every overrides
lookup downstream). -/
def cfgProfileDefault (cfg : Json) : String :=
  match cfgGet cfg "profile" with
  | some (Json.str s) => s
  | _ => "headless"

/-- `int(cfg.get("exec_timeout_sec", 8))`.  Modelled for numeric values;
a non-numeric override would make Python's `int()` raise inside the
`try` of `run_snippet` (the `.raised` outcome) and is folded into the
default here. -/
def cfgExecTimeout (cfg : Json) : Int :=
  match cfgGet cfg "exec_timeout_sec" with
  | some (Json.num n) => n
  | _ => 8

/-! ### Environment detector -/

/-- The host signals `detect_environment` reads: selected environment
variables (`none` when unset), the `isatty` probe (`none` when it
raises), and the platform / identity values. -/
structure HostSignals where
  display : Option String
  waylandDisplay : Option String
  sshConnection : Option String
  sshClient : Option String
  stdoutIsTTY : Option Bool
  osName : String
  osRelease : String
  pythonVersion : String
  user : String
  hostname : String
deriving DecidableEq, Repr

/-- The dict returned by `detect_environment`. -/
structure EnvDesc where
  os : String
  os_release : String
  python : String
  is_ssh : Bool
  display : String
  has_gui : Bool
  is_tty : Bool
  user : String
  hostname : String
deriving DecidableEq, Repr

/-- Python `a or b` over env-var reads: `None` and `""` are falsy. -/
def pyOrEnv (a b : Option String) : Option String :=
  match a with
  | some s => if s = "" then b else some s
  | none => b

/-- `bool(x)` for an optional env string. -/
def envTruthy (a : Option String) : Bool :=
  match a with
  | some s => !s.isEmpty
  | none => false

/-- `detect_environment()`, as a function of the host signals. -/
def detect_environment (h : HostSignals) : EnvDesc :=
  let display := pyOrEnv h.display h.waylandDisplay
  { os := h.osName
    os_release := h.osRelease
    python := h.pythonVersion
    is_ssh := envTruthy h.sshConnection || envTruthy h.sshClient
    display := (match display with | some s => s | none => "")
    has_gui := envTruthy display
    is_tty := (match h.stdoutIsTTY with | some b => b | none => false)
    user := h.user
    hostname := h.hostname }

/-! ### Security policy and profile resolution -/

structure SecurityPolicy where
  blocked_imports : List String
  blocked_calls : List String
deriving DecidableEq, Repr

set_option linter.unusedVariables false in
/-- `get_profile(env, override, cfg)`: literally
`override or cfg.get("profile", "headless")` — the environment argument
is never consulted. -/
def get_profile (env : EnvDesc) (override : Option String) (cfg : Json) : String :=
  match override with
  | some s => if s = "" then cfgProfileDefault cfg else s
  | none => cfgProfileDefault cfg

/-- The string entries of a JSON array (the config blocklists are lists
of module / callable name strings). -/
def strList : Option Json → List String
  | some (Json.arr xs) =>
    xs.filterMap fun j => match j with | Json.str s => some s | _ => none
  | _ => []

/-- `_policy_for_profile(profile, cfg)`:
`cfg.get("policy_overrides", {}).get(profile, {})` then the two list
fields, empty when absent. -/
def policy_for_profile (profile : String) (cfg : Json) : SecurityPolicy :=
  let p :=
    match cfgGet cfg "policy_overrides" with
    | some (Json.obj ov) => lookupJ ov profile
    | _ => none
  match p with
  | some (Json.obj pp) =>
    { blocked_imports := strList (lookupJ pp "blocked_imports"),
      blocked_calls := strList (lookupJ pp "blocked_calls") }
  | _ => { blocked_imports := [], blocked_calls := [] }

/-- Whether the config's `policy_overrides` table has an entry for
`prof`. -/
def overridesHasProfile (cfg : Json) (prof : String) : Bool :=
  match cfgGet cfg "policy_overrides" with
  | some (Json.obj ov) => (lookupJ ov prof).isSome
  | _ => false

/-! ### Preflight analyzer -/

def violationImportMsg (m : String) (i : Nat) : String :=
  "SandboxViolation: blocked import " ++ sq ++ m ++ sq ++
    " (line " ++ toString i ++ ")"

def violationCallMsg (c : String) (i : Nat) : String :=
  "SandboxViolation: blocked call " ++ sq ++ c ++ sq ++
    " (line " ++ toString i ++ ")"

/-- One iteration of `preflight_check`'s outer loop: the violations of
line `L` (1-based index `i`), blocked imports first, then blocked calls,
in policy-list order — exactly the two inner `for` loops. -/
def preflightLine (i : Nat) (L : List Char) (policy : SecurityPolicy) : List String :=
  ((policy.blocked_imports.filter fun m => importHit L m.data).map
    fun m => violationImportMsg m i) ++
  ((policy.blocked_calls.filter fun c => callHit L c.data).map
    fun c => violationCallMsg c i)

/-- `preflight_check(code_str, policy)`. -/
def preflight_check (code_str : String) (policy : SecurityPolicy) : List String :=
  concatMap (fun p => preflightLine p.1 p.2 policy)
    (enumFrom1 1 (pySplitlines code_str.data))

/-! ### Execution wrapper semantics

`_wrapper_source` synthesizes a bootstrap program; we embed the
behaviour of that program: which imports its `BlockedFinder` rejects,
whether it replaces `os.system`, and how its guarded `try/except`
converts the target's outcome into an exit code and stderr text. -/

/-- `fullname.split('.', 1)[0]`. -/
def rootOf (fullname : String) : String :=
  String.mk (fullname.data.takeWhile fun c => c != '.')

/-- The message of the `ImportError` raised by `BlockedFinder.find_spec`. -/
def blockedImportErrMsg (root : String) : String :=
  "SandboxViolation: blocked import " ++ sq ++ root ++ sq

/-- `BlockedFinder.find_spec` raises exactly when the attempted import's
root module name is in the wrapper's `BLOCKED` set. -/
def finderBlocks (policy : SecurityPolicy) (fullname : String) : Bool :=
  policy.blocked_imports.contains (rootOf fullname)

/-- The wrapper replaces `os.system` by a raising stand-in exactly when
`"os.system"` is in its `CALLS` set. -/
def osSystemPatched (policy : SecurityPolicy) : Bool :=
  policy.blocked_calls.contains "os.system"

/-- How `runpy.run_path` of the user's program can end inside the
wrapper: normal return; an uncaught `ImportError` carrying its message
(the sandbox's own blocked-import error is one instance, an ordinary
missing-module error another); or any other uncaught `Exception`
carrying its traceback detail.  A deliberate `SystemExit` passes through
both handlers unchanged and is not modelled as a failure. -/
inductive TargetOutcome where
  | completes : TargetOutcome
  | importError (msg : String) : TargetOutcome
  | raisesOther (detail : String) : TargetOutcome
deriving DecidableEq, Repr

structure WrapperExit where
  exitCode : Int
  stderrText : String
deriving DecidableEq, Repr

def tracebackHeader : String := "Traceback (most recent call last):\n"

/-- The guarded `try/except` at the end of the synthesized wrapper:
`except ImportError` writes the message and exits 2, `except Exception`
prints the traceback and exits 1, and falling off the end exits 0. -/
def wrapperRun (outcome : TargetOutcome) : WrapperExit :=
  match outcome with
  | .completes => { exitCode := 0, stderrText := "" }
  | .importError msg => { exitCode := 2, stderrText := msg ++ "\n" }
  | .raisesOther detail => { exitCode := 1, stderrText := tracebackHeader ++ detail }

/-- The distinguishable marker of the sandbox's blocked-import error. -/
def isBlockedImportErr (msg : String) : Bool :=
  startsWithAt msg.data 0 ("SandboxViolation: blocked import " ++ sq).data

/-! ### Process runner -/

/-- Stands for `sys.executable`. -/
def sysExecutable : String := "/usr/bin/python3"

/-- The attributes of a child-process spawn.  `preexecLimits` records the
`(RLIMIT_AS bytes, RLIMIT_CPU seconds)` ceilings installed in the child
between fork and exec by a preexec hook; `none` means the spawn has no
preexec hook at all. -/
structure SpawnSpec where
  argv : List String
  timeoutSec : Option Int
  preexecLimits : Option (Nat × Nat)
  usesMinimalEnv : Bool
deriving DecidableEq, Repr

/-- The key filter of `_minimal_env`: `PATH`, `HOME`, `LANG` and `LC_*`
survive (plus the injected `PYTHONUNBUFFERED=1`). -/
def minimalEnvKeeps (k : String) : Bool :=
  k == "PATH" || k == "HOME" || k == "LANG" || startsWithAt k.data 0 "LC_".data

/-- The `subprocess.run` invocation of `_execute_user_code`: the wrapper
under the interpreter, piped output, a wall-clock timeout, the minimal
environment — and no `preexec_fn`, hence no resource ceilings. -/
def sandboxSpawn (wrapperPath : String) (timeout : Int) : SpawnSpec :=
  { argv := [sysExecutable, wrapperPath]
    timeoutSec := some timeout
    preexecLimits := none
    usesMinimalEnv := true }

/-- Outcome of the `subprocess.run` call as seen by `_execute_user_code`:
normal completion; `TimeoutExpired` (which in CPython carries whatever
partial stdout/stderr had been captured when the child was killed); or
any other exception raised while running the child. -/
inductive SubprocOutcome where
  | completed (returncode : Int) (stdout stderr : String) : SubprocOutcome
  | timedOut (partialStdout partialStderr : String) : SubprocOutcome
  | raised (exc : String) : SubprocOutcome
deriving DecidableEq, Repr

/-- A Python call that either returns a value or lets an exception
propagate to its caller. -/
inductive PyOutcome (α : Type) where
  | ret (a : α) : PyOutcome α
  | exn (e : String) : PyOutcome α
deriving DecidableEq, Repr

/-- The 4-tuple `_execute_user_code` returns. -/
structure RunnerReturn where
  rc : Int
  out : String
  err : String
  durMs : Nat
deriving DecidableEq, Repr

/-- Observable effects of one request: the subprocess spawn (if any) and
the temporary files created / removed under `TMP_DIR`. -/
structure ExecTrace where
  spawned : Option SpawnSpec
  created : List String
  removed : List String
deriving DecidableEq, Repr

def timeoutMsg (timeout : Int) : String :=
  "Timeout after " ++ toString timeout ++ "s"

/-- `_execute_user_code(code_path, policy, timeout)`.  `wrapperPath`
stands for the fresh `TMP_DIR/wrap_<uuid>.py` name and `durMs` for the
measured elapsed time.  On `TimeoutExpired` it returns
`(124, "", "Timeout after <t>s")`, discarding the exception's partial
output; any other exception propagates.  The `finally` removes the
wrapper file on every path. -/
def execute_user_code (timeout : Int) (sub : SubprocOutcome) (durMs : Nat)
    (wrapperPath : String) : PyOutcome RunnerReturn × ExecTrace :=
  let spawn := sandboxSpawn wrapperPath timeout
  match sub with
  | .completed rc out err =>
    (.ret ⟨rc, out, err, durMs⟩, ⟨some spawn, [wrapperPath], [wrapperPath]⟩)
  | .timedOut _ _ =>
    (.ret ⟨124, "", timeoutMsg timeout, durMs⟩,
     ⟨some spawn, [wrapperPath], [wrapperPath]⟩)
  | .raised e => (.exn e, ⟨some spawn, [wrapperPath], [wrapperPath]⟩)

/-! ### `run_snippet` and `run_file`

The optional collaborator modules (`BUS`, `intelligence`, `auto_heal`,
`code_registry`, `integration`) are modelled as absent (their imports are
guarded and every use is conditional), and `run_snippet` is modelled with
`prompt=None`, so the prompt-analysis branch is inert. -/

/-- The result dict both entry points return. -/
structure ExecDict where
  ok : Bool
  stdout : String
  stderr : String
  returncode : Int
  env : EnvDesc
  profile : String
  duration_ms : Nat
deriving DecidableEq, Repr

/-- `run_snippet(code_str, prompt=None, profile)`.  `cfgFile` is the
state of the persisted config, `host` the host signals, `sub` the
behaviour of the spawned child, `codePathName` the fresh
`TMP_DIR/user_<uuid>.py` name. -/
def run_snippet (code_str : String) (profile : Option String)
    (cfgFile : CfgFile) (host : HostSignals) (sub : SubprocOutcome)
    (durMs : Nat) (codePathName wrapperPath : String) :
    PyOutcome ExecDict × ExecTrace :=
  let cfg := load_cfg cfgFile
  let env := detect_environment host
  let prof := get_profile env profile cfg
  let policy := policy_for_profile prof cfg
  let findings := preflight_check code_str policy
  if findings.isEmpty then
    match execute_user_code (cfgExecTimeout cfg) sub durMs wrapperPath with
    | (.ret r, ft) =>
      (.ret { ok := r.rc == 0, stdout := r.out, stderr := r.err,
              returncode := r.rc, env := env, profile := prof,
              duration_ms := r.durMs },
       { spawned := ft.spawned
         created := codePathName :: ft.created
         removed := ft.removed ++ [codePathName] })
    | (.exn e, ft) =>
      (.exn e,
       { spawned := ft.spawned
         created := codePathName :: ft.created
         removed := ft.removed ++ [codePathName] })
  else
    (.ret { ok := false, stdout := "", stderr := joinLines findings,
            returncode := 2, env := env, profile := prof, duration_ms := 0 },
     { spawned := none, created := [], removed := [] })

/-- The filesystem as `run_file` sees it: `resolve` stands for
`Path(path).expanduser().resolve()` (user expansion plus
absolutisation / normalisation), `pathExists` and `read` for the checks
on the resolved path. -/
structure FileSys where
  resolve : String → String
  pathExists : String → Bool
  read : String → String

/-- `run_file(path, profile)`. -/
def run_file (path : String) (profile : Option String) (cfgFile : CfgFile)
    (host : HostSignals) (fs : FileSys) (sub : SubprocOutcome) (durMs : Nat)
    (wrapperPath : String) : PyOutcome ExecDict × ExecTrace :=
  let cfg := load_cfg cfgFile
  let env := detect_environment host
  let prof := get_profile env profile cfg
  let policy := policy_for_profile prof cfg
  let p := fs.resolve path
  if fs.pathExists p then
    let findings := preflight_check (fs.read p) policy
    if findings.isEmpty then
      match execute_user_code (cfgExecTimeout cfg) sub durMs wrapperPath with
      | (.ret r, ft) =>
        (.ret { ok := r.rc == 0, stdout := r.out, stderr := r.err,
                returncode := r.rc, env := env, profile := prof,
                duration_ms := r.durMs }, ft)
      | (.exn e, ft) => (.exn e, ft)
    else
      (.ret { ok := false, stdout := "", stderr := joinLines findings,
              returncode := 2, env := env, profile := prof, duration_ms := 0 },
       { spawned := none, created := [], removed := [] })
  else
    (.ret { ok := false, stdout := "", stderr := "File not found: " ++ p,
            returncode := 2, env := env, profile := prof, duration_ms := 0 },
     { spawned := none, created := [], removed := [] })

/-- CPython `os.path.expanduser` for the `~`-forms, given the home
directory. -/
def pyExpandUser (home path : String) : String :=
  if path = "~" then home
  else if startsWithAt path.data 0 "~/".data then
    home ++ String.mk (path.data.drop 1)
  else path

/-- A realistic filesystem for a host with `HOME=/root`, no symlinks and
no file at the requested location: `expanduser` maps `~/x` to `/root/x`
and the non-strict `resolve` leaves the resulting absolute, normalised
path unchanged. -/
def homeOnlyFs : FileSys :=
  { resolve := fun p => pyExpandUser "/root" p
    pathExists := fun _ => false
    read := fun _ => "" }

/-! ### The direct runner of `gpt_chat_v3.py` -/

def PY_RAM_LIMIT_MB : Nat := 256
def PY_CPU_SECS : Nat := 30
def PY_TIMEOUT_SEC : Int := 60

/-- `_preexec_resource_limits`: the equal soft/hard rlimits installed in
the child between fork and exec — `RLIMIT_AS` in bytes and `RLIMIT_CPU`
in seconds. -/
def preexec_resource_limits : Nat × Nat :=
  (PY_RAM_LIMIT_MB * 1024 * 1024, PY_CPU_SECS)

inductive PyExecMode where
  | interactive : PyExecMode
  | capture : PyExecMode
deriving DecidableEq, Repr

/-- The `subprocess.Popen` invocation `run_python_script` makes when it
executes a script directly (sandbox module unavailable): both modes pass
`preexec_fn=_preexec_resource_limits`; only capture mode waits with the
`PY_TIMEOUT_SEC` timeout; the full parent environment is inherited. -/
def run_python_script_spawn (mode : PyExecMode) (pythonBin scriptPath : String)
    (args : List String) : SpawnSpec :=
  match mode with
  | .interactive =>
    { argv := pythonBin :: scriptPath :: args
      timeoutSec := none
      preexecLimits := some preexec_resource_limits
      usesMinimalEnv := false }
  | .capture =>
    { argv := pythonBin :: scriptPath :: args
      timeoutSec := some PY_TIMEOUT_SEC
      preexecLimits := some preexec_resource_limits
      usesMinimalEnv := false }

/-! ### Request-level abbreviations and concrete hosts -/

/-- The policy a request resolves: the profile from override / config,
then its overrides-table entry. -/
def active_policy (profile : Option String) (cfgFile : CfgFile)
    (host : HostSignals) : SecurityPolicy :=
  policy_for_profile
    (get_profile (detect_environment host) profile (load_cfg cfgFile))
    (load_cfg cfgFile)

/-- The preflight violation list belonging to a `run_snippet` request. -/
def snippet_violations (code_str : String) (profile : Option String)
    (cfgFile : CfgFile) (host : HostSignals) : List String :=
  preflight_check code_str (active_policy profile cfgFile host)

/-- The preflight violation list belonging to a `run_file` request (no
scan happens when the file does not exist). -/
def run_file_violations (path : String) (profile : Option String)
    (cfgFile : CfgFile) (host : HostSignals) (fs : FileSys) : List String :=
  if fs.pathExists (fs.resolve path) then
    preflight_check (fs.read (fs.resolve path)) (active_policy profile cfgFile host)
  else []

/-- A quiet local host: no SSH, no display, not a TTY. -/
def hostLocal : HostSignals :=
  { display := none, waylandDisplay := none, sshConnection := none,
    sshClient := none, stdoutIsTTY := some false, osName := "Linux",
    osRelease := "6.8.0", pythonVersion := "3.11.2", user := "hal",
    hostname := "halbox" }

/-- The same machine reached over SSH: a network-capable remote session. -/
def hostRemote : HostSignals :=
  { hostLocal with
    sshConnection := some "10.0.0.5 50022 10.0.0.1 22"
    stdoutIsTTY := some true }

/-- The message of an ordinary missing-module `ImportError`. -/
def noModuleMsg : String := "No module named " ++ sq ++ "numpy2" ++ sq

/-! ### Spec-side predicates

These formalise phrases of the specification and are used only in claim
statements, next to the definitions translated from the source. -/

/-- The head of `t` (if any) does not extend a word to its left. -/
def headNonWordB : List Char → Bool
  | [] => true
  | c :: _ => !isWordChar c

/-- The last character of `pre` (if any) does not extend a word to its
right, so a keyword may start just after `pre`. -/
def lastNonWordB (l : List Char) : Bool :=
  match l.getLast? with
  | none => true
  | some c => !isWordChar c

/-- A plausible module name: nonempty, made of word characters. -/
def wordish (m : String) : Prop :=
  m.data ≠ [] ∧ ∀ c ∈ m.data, isWordChar c = true

/-- The claim's "line that contains an import of module root `m`",
covering both statement forms — `import m…` (nothing extending the name)
and `from m import …` — anywhere in the line, as long as the keyword is
not glued to a word on its left (line start or any non-word character,
e.g. indentation, before it). -/
def specImportLine (L : List Char) (m : String) : Prop :=
  (∃ pre t, L = pre ++ ("import ".data ++ m.data ++ t)
      ∧ lastNonWordB pre = true ∧ headNonWordB t = true) ∨
  (∃ pre t, L = pre ++ ("from ".data ++ m.data ++ (" import".data ++ t))
      ∧ lastNonWordB pre = true)

/-! ### Lemmas about the scanning primitives -/

theorem startsWithAt_append (a pat rest : List Char) :
    startsWithAt (a ++ (pat ++ rest)) a.length pat = true := by
  simp only [startsWithAt, List.drop_left, decide_eq_true_eq]
  exact List.take_left pat rest

theorem startsWithAt_zero (pat rest : List Char) :
    startsWithAt (pat ++ rest) 0 pat = true := by
  simpa using startsWithAt_append [] pat rest

theorem startsWithAt_shift (a s pat : List Char) (i : Nat)
    (h : startsWithAt s i pat = true) :
    startsWithAt (a ++ s) (a.length + i) pat = true := by
  simp only [startsWithAt, decide_eq_true_eq] at h ⊢
  rw [← List.drop_drop, List.drop_left]
  exact h

theorem startsWithAt_extend (s b pat : List Char) (i : Nat) (hi : i ≤ s.length)
    (h : startsWithAt s i pat = true) :
    startsWithAt (s ++ b) i pat = true := by
  simp only [startsWithAt, decide_eq_true_eq] at h ⊢
  rw [List.drop_append_of_le_length hi]
  have hd : s.drop i = pat ++ (s.drop i).drop pat.length := by
    conv_lhs => rw [← List.take_append_drop pat.length (s.drop i)]
    rw [h]
  rw [hd, List.append_assoc]
  exact List.take_left _ _

theorem sublistAt_intro (s pat : List Char) (i : Nat) (hi : i ≤ s.length)
    (h : startsWithAt s i pat = true) : sublistAt pat s = true := by
  unfold sublistAt
  exact List.any_eq_true.mpr ⟨i, List.mem_range.mpr (by omega), h⟩

theorem sublistAt_self (pat : List Char) : sublistAt pat pat = true := by
  refine sublistAt_intro pat pat 0 (by omega) ?_
  simpa using startsWithAt_zero pat []

theorem sublistAt_append_right (a s pat : List Char)
    (h : sublistAt pat s = true) : sublistAt pat (a ++ s) = true := by
  unfold sublistAt at h
  obtain ⟨i, hi, hs⟩ := List.any_eq_true.mp h
  have hib : i ≤ s.length := by
    have := List.mem_range.mp hi; omega
  refine sublistAt_intro _ _ (a.length + i) ?_ (startsWithAt_shift a s pat i hs)
  simp only [List.length_append]; omega

theorem sublistAt_append_left (s b pat : List Char)
    (h : sublistAt pat s = true) : sublistAt pat (s ++ b) = true := by
  unfold sublistAt at h
  obtain ⟨i, hi, hs⟩ := List.any_eq_true.mp h
  have hib : i ≤ s.length := by
    have := List.mem_range.mp hi; omega
  refine sublistAt_intro _ _ i ?_ (startsWithAt_extend s b pat i hib hs)
  simp only [List.length_append]; omega

theorem sublistAt_joinLines (x : String) (l : List String) (hx : x ∈ l) :
    sublistAt x.data (joinLines l).data = true := by
  induction l with
  | nil => cases hx
  | cons y ys ih =>
    cases ys with
    | nil =>
      obtain rfl : x = y := by simpa using hx
      exact sublistAt_self x.data
    | cons z zs =>
      have hjoin : joinLines (y :: z :: zs) = y ++ "\n" ++ joinLines (z :: zs) := rfl
      rcases List.mem_cons.mp hx with rfl | hmem
      · rw [hjoin, String.data_append, String.data_append, List.append_assoc]
        exact sublistAt_append_left _ _ _ (sublistAt_self x.data)
      · rw [hjoin, String.data_append]
        exact sublistAt_append_right _ _ _ (ih hmem)

theorem wordAt_append_add (a b : List Char) (k : Nat) :
    wordAt (a ++ b) (a.length + k) = wordAt b k := by
  unfold wordAt
  rw [List.getElem?_append_right (by omega),
    show a.length + k - a.length = k from by omega]

theorem boundary_cons_word (c : Char) (rest : List Char)
    (h : isWordChar c = true) : boundary (c :: rest) 0 = true := by
  simp [boundary, prevWordAt, wordAt, h]

theorem boundary_after_word (p m t : List Char) (hm : m ≠ [])
    (hw : ∀ c ∈ m, isWordChar c = true) (ht : headNonWordB t = true) :
    boundary (p ++ (m ++ t)) (p.length + m.length) = true := by
  have hml : 1 ≤ m.length := List.length_pos.mpr hm
  have hprev : prevWordAt (p ++ (m ++ t)) (p.length + m.length) = true := by
    rw [show p.length + m.length = (p.length + (m.length - 1)) + 1 from by omega]
    show wordAt (p ++ (m ++ t)) (p.length + (m.length - 1)) = true
    rw [wordAt_append_add]
    unfold wordAt
    rw [List.getElem?_append_left (by omega : m.length - 1 < m.length),
      List.getElem?_eq_getElem (by omega : m.length - 1 < m.length)]
    simpa using hw _ (List.getElem_mem _)
  have hnext : wordAt (p ++ (m ++ t)) (p.length + m.length) = false := by
    have h2 : m.length = m.length + 0 := rfl
    rw [show p.length + m.length = (p ++ m).length + 0 from by
        simp [List.length_append],
      ← List.append_assoc, wordAt_append_add]
    cases t with
    | nil => simp [wordAt]
    | cons c cs =>
      simp only [headNonWordB, Bool.not_eq_true'] at ht
      simp [wordAt, ht]
  simp [boundary, hprev, hnext]

theorem allSpacesAt_one (a : List Char) (c : Char) (t : List Char)
    (h : pyIsSpace c = true) : allSpacesAt (a ++ c :: t) a.length 1 = true := by
  unfold allSpacesAt
  rw [List.drop_left]
  simp [List.length_append, h]

theorem boundary_before_word (pre : List Char) (c : Char) (rest : List Char)
    (hc : isWordChar c = true) (hp : lastNonWordB pre = true) :
    boundary (pre ++ c :: rest) pre.length = true := by
  have hnext : wordAt (pre ++ c :: rest) pre.length = true := by
    rw [show pre.length = pre.length + 0 from rfl, wordAt_append_add]
    simp [wordAt, hc]
  have hprev : prevWordAt (pre ++ c :: rest) pre.length = false := by
    cases hpre : pre.length with
    | zero => rfl
    | succ q =>
      show wordAt (pre ++ c :: rest) q = false
      have hq : q < pre.length := by omega
      unfold wordAt
      rw [List.getElem?_append_left hq, List.getElem?_eq_getElem hq]
      have hlast : pre.getLast? = some pre[q] := by
        rw [List.getLast?_eq_getElem?, show pre.length - 1 = q from by omega]
        exact List.getElem?_eq_getElem hq
      unfold lastNonWordB at hp
      rw [hlast] at hp
      simp only [Bool.not_eq_true'] at hp
      simp [hp]
  simp [boundary, hprev, hnext]

theorem importHit_core (pre kw : List Char) (m : String) (t : List Char) (sp : Char)
    (hkw : kw = "import".data ∨ kw = "from".data)
    (hpre : lastNonWordB pre = true)
    (hm : m.data ≠ []) (hw : ∀ c ∈ m.data, isWordChar c = true)
    (hsp : pyIsSpace sp = true) (ht : headNonWordB t = true) :
    importHit (pre ++ (kw ++ sp :: (m.data ++ t))) m.data = true := by
  unfold importHit
  apply List.any_eq_true.mpr
  refine ⟨pre.length, List.mem_range.mpr
    (by simp only [List.length_append]; omega), ?_⟩
  unfold importHitAt
  rw [Bool.and_eq_true]
  constructor
  · obtain ⟨c, rest, hcr, hc⟩ :
        ∃ c rest, kw ++ sp :: (m.data ++ t) = c :: rest ∧ isWordChar c = true := by
      rcases hkw with h | h <;> subst h <;> exact ⟨_, _, rfl, by decide⟩
    rw [hcr]
    exact boundary_before_word pre c rest hc hpre
  · apply List.any_eq_true.mpr
    refine ⟨kw, ?_, ?_⟩
    · rcases hkw with h | h <;> subst h <;> simp
    · rw [Bool.and_eq_true]
      constructor
      · exact startsWithAt_append pre kw (sp :: (m.data ++ t))
      · apply List.any_eq_true.mpr
        refine ⟨1, List.mem_range.mpr
          (by simp only [List.length_append, List.length_cons]; omega), ?_⟩
        simp only [Bool.and_eq_true]
        refine ⟨⟨⟨by simp, ?_⟩, ?_⟩, ?_⟩
        · rw [show pre ++ (kw ++ sp :: (m.data ++ t))
                = (pre ++ kw) ++ sp :: (m.data ++ t) from by simp,
            show pre.length + kw.length = (pre ++ kw).length from by simp]
          exact allSpacesAt_one (pre ++ kw) sp (m.data ++ t) hsp
        · rw [show pre ++ (kw ++ sp :: (m.data ++ t))
                = (pre ++ kw ++ [sp]) ++ (m.data ++ t) from by simp,
            show pre.length + kw.length + 1 = (pre ++ kw ++ [sp]).length from by
              simp only [List.length_append, List.length_cons, List.length_nil]]
          exact startsWithAt_append _ _ _
        · rw [show pre ++ (kw ++ sp :: (m.data ++ t))
                = (pre ++ kw ++ [sp]) ++ (m.data ++ t) from by simp,
            show pre.length + kw.length + 1 + m.data.length
                = (pre ++ kw ++ [sp]).length + m.data.length from by
              simp only [List.length_append, List.length_cons, List.length_nil]]
          exact boundary_after_word _ _ _ hm hw ht

theorem specImportLine_hit (L : List Char) (m : String)
    (hw : wordish m) (h : specImportLine L m) : importHit L m.data = true := by
  obtain ⟨hm, hwc⟩ := hw
  rcases h with ⟨pre, t, hL, hpre, ht⟩ | ⟨pre, t, hL, hpre⟩
  · have hL' : L = pre ++ ("import".data ++ ' ' :: (m.data ++ t)) := by
      rw [hL, show ("import ".data : List Char) = "import".data ++ [' '] from
        by decide]
      simp
    rw [hL']
    exact importHit_core pre _ m t ' ' (Or.inl rfl) hpre hm hwc (by decide) ht
  · have hL' : L = pre ++ ("from".data ++ ' ' :: (m.data ++ (" import".data ++ t))) := by
      rw [hL, show ("from ".data : List Char) = "from".data ++ [' '] from by decide]
      simp
    rw [hL']
    refine importHit_core pre _ m _ ' ' (Or.inr rfl) hpre hm hwc (by decide) ?_
    rw [show (" import".data : List Char) = ' ' :: "import".data from by decide,
      List.cons_append]
    simp only [headNonWordB]
    decide

/-! ### Lemmas about preflight bookkeeping -/

theorem mem_concatMap {α β : Type} {f : α → List β} {a : α} {l : List α} {b : β}
    (ha : a ∈ l) (hb : b ∈ f a) : b ∈ concatMap f l := by
  induction l with
  | nil => cases ha
  | cons hd tl ih =>
    rcases List.mem_cons.mp ha with rfl | hmem
    · exact List.mem_append_left _ hb
    · exact List.mem_append_right _ (ih hmem)

theorem concatMap_eq_nil {α β : Type} {f : α → List β} {l : List α}
    (h : ∀ a ∈ l, f a = []) : concatMap f l = [] := by
  induction l with
  | nil => rfl
  | cons hd tl ih =>
    show f hd ++ concatMap f tl = []
    rw [h hd (List.mem_cons_self hd tl), ih fun a ha => h a (List.mem_cons_of_mem hd ha)]
    rfl

theorem enumFrom1_mem (Ls : List (List Char)) (n k : Nat) (L : List Char)
    (h : Ls[k]? = some L) : (n + k, L) ∈ enumFrom1 n Ls := by
  induction Ls generalizing n k with
  | nil => simp at h
  | cons hd tl ih =>
    cases k with
    | zero =>
      simp only [List.getElem?_cons_zero, Option.some.injEq] at h
      subst h
      exact List.mem_cons_self _ _
    | succ k' =>
      simp only [List.getElem?_cons_succ] at h
      have := ih (n + 1) k' h
      rw [show n + (k' + 1) = (n + 1) + k' from by omega]
      exact List.mem_cons_of_mem _ this

/-- The formatted blocked-import violation belongs to the preflight result
whenever line `i` (1-based) of the source matches the import pattern for a
blocked module `m`. -/
theorem violation_mem_preflight (code_str : String) (policy : SecurityPolicy)
    (m : String) (i : Nat) (L : List Char) (hi : 1 ≤ i)
    (hline : (pySplitlines code_str.data)[i - 1]? = some L)
    (hm : m ∈ policy.blocked_imports)
    (hhit : importHit L m.data = true) :
    violationImportMsg m i ∈ preflight_check code_str policy := by
  unfold preflight_check
  have hpair : (i, L) ∈ enumFrom1 1 (pySplitlines code_str.data) := by
    have := enumFrom1_mem (pySplitlines code_str.data) 1 (i - 1) L hline
    rwa [show 1 + (i - 1) = i from by omega] at this
  refine mem_concatMap hpair ?_
  unfold preflightLine
  apply List.mem_append_left
  exact List.mem_map.mpr ⟨m, List.mem_filter.mpr ⟨hm, hhit⟩, rfl⟩

/-! ### Lemmas about `_load_cfg`'s deep merge -/

theorem lookupJ_setKey_same (d : List (String × Json)) (k : String) (v : Json) :
    lookupJ (setKey d k v) k = some v := by
  induction d with
  | nil => simp [setKey, lookupJ]
  | cons p rest ih =>
    obtain ⟨k', v'⟩ := p
    by_cases h : k' = k
    · subst h; simp [setKey, lookupJ]
    · simp [setKey, h, lookupJ, ih]

theorem lookupJ_setKey_other (d : List (String × Json)) (k q : String) (v : Json)
    (h : q ≠ k) : lookupJ (setKey d k v) q = lookupJ d q := by
  have hkq : ¬(k = q) := fun hh => h hh.symm
  induction d with
  | nil => simp [setKey, lookupJ, hkq]
  | cons p rest ih =>
    obtain ⟨k', v'⟩ := p
    by_cases hk : k' = k
    · subst hk
      simp [setKey, lookupJ, hkq]
    · simp [setKey, hk, lookupJ, ih]

theorem deepMergePairs_nil (dst : List (String × Json)) :
    deepMergePairs dst [] = dst := by
  rw [deepMergePairs]

theorem deepMergePairs_cons (dst : List (String × Json)) (k : String) (v : Json)
    (rest : List (String × Json)) :
    deepMergePairs dst ((k, v) :: rest)
      = deepMergePairs (setKey dst k (mergeVal (lookupJ dst k) v)) rest := by
  rw [deepMergePairs]

theorem mergeVal_obj_obj (w s : List (String × Json)) :
    mergeVal (some (Json.obj w)) (Json.obj s) = Json.obj (deepMergePairs w s) := by
  rw [mergeVal]

theorem mergeVal_default (old : Option Json) (v : Json)
    (hcase : (∀ w, old ≠ some (Json.obj w)) ∨ (∀ s, v ≠ Json.obj s)) :
    mergeVal old v = v := by
  cases v with
  | obj s =>
    rcases old with _ | j
    · (rw [mergeVal]; simp)
    · cases j with
      | obj w =>
        rcases hcase with hc | hc
        · exact absurd rfl (hc w)
        · exact absurd rfl (hc s)
      | null => (rw [mergeVal]; simp)
      | bool b => (rw [mergeVal]; simp)
      | num n => (rw [mergeVal]; simp)
      | str t => (rw [mergeVal]; simp)
      | arr xs => (rw [mergeVal]; simp)
  | null => (rw [mergeVal]; simp)
  | bool b => (rw [mergeVal]; simp)
  | num n => (rw [mergeVal]; simp)
  | str t => (rw [mergeVal]; simp)
  | arr xs => (rw [mergeVal]; simp)

theorem deepMergePairs_lookup_not_mem (dst src : List (String × Json)) (k : String)
    (h : k ∉ src.map Prod.fst) :
    lookupJ (deepMergePairs dst src) k = lookupJ dst k := by
  induction src generalizing dst with
  | nil => rw [deepMergePairs_nil]
  | cons p rest ih =>
    obtain ⟨k', v⟩ := p
    have hk' : k' ≠ k := by
      intro hh
      exact h (by simp [hh])
    have hrest : k ∉ rest.map Prod.fst := by
      intro hh
      exact h (by simp [hh])
    rw [deepMergePairs_cons, ih _ hrest,
      lookupJ_setKey_other dst k' k _ (fun hh => hk' hh.symm)]

theorem deepMergePairs_lookup_override (dst src : List (String × Json))
    (k : String) (v : Json)
    (hnd : (src.map Prod.fst).Nodup) (hsrc : lookupJ src k = some v)
    (hcase : (∀ w, lookupJ dst k ≠ some (Json.obj w)) ∨ (∀ s, v ≠ Json.obj s)) :
    lookupJ (deepMergePairs dst src) k = some v := by
  induction src generalizing dst with
  | nil => simp [lookupJ] at hsrc
  | cons p rest ih =>
    obtain ⟨k', v'⟩ := p
    rw [List.map_cons, List.nodup_cons] at hnd
    by_cases hk : k' = k
    · subst hk
      have hv : v' = v := by
        simpa [lookupJ] using hsrc
      subst hv
      rw [deepMergePairs_cons, mergeVal_default (lookupJ dst k') v' hcase,
        deepMergePairs_lookup_not_mem _ _ _ hnd.1,
        lookupJ_setKey_same]
    · have hsrc' : lookupJ rest k = some v := by
        simpa [lookupJ, hk] using hsrc
      rw [deepMergePairs_cons]
      refine ih _ hnd.2 hsrc' ?_
      rw [lookupJ_setKey_other dst k' k _ (fun hh => hk hh.symm)]
      exact hcase

theorem deepMergePairs_lookup_obj (dst src : List (String × Json)) (k : String)
    (s w : List (String × Json))
    (hnd : (src.map Prod.fst).Nodup)
    (hsrc : lookupJ src k = some (Json.obj s))
    (hdst : lookupJ dst k = some (Json.obj w)) :
    lookupJ (deepMergePairs dst src) k = some (Json.obj (deepMergePairs w s)) := by
  induction src generalizing dst with
  | nil => simp [lookupJ] at hsrc
  | cons p rest ih =>
    obtain ⟨k', v'⟩ := p
    rw [List.map_cons, List.nodup_cons] at hnd
    by_cases hk : k' = k
    · subst hk
      have hv : v' = Json.obj s := by
        simpa [lookupJ] using hsrc
      subst hv
      rw [deepMergePairs_cons, hdst, mergeVal_obj_obj,
        deepMergePairs_lookup_not_mem _ _ _ hnd.1,
        lookupJ_setKey_same]
    · have hsrc' : lookupJ rest k = some (Json.obj s) := by
        simpa [lookupJ, hk] using hsrc
      rw [deepMergePairs_cons]
      refine ih _ hnd.2 hsrc' ?_
      rw [lookupJ_setKey_other dst k' k _ (fun hh => hk hh.symm)]
      exact hdst

/-! ### Branch lemmas for `run_snippet` / `run_file` -/

theorem run_snippet_reject (code_str : String) (profile : Option String)
    (cfgFile : CfgFile) (host : HostSignals) (sub : SubprocOutcome)
    (durMs : Nat) (cp wp : String)
    (h : (snippet_violations code_str profile cfgFile host).isEmpty = false) :
    run_snippet code_str profile cfgFile host sub durMs cp wp
      = (PyOutcome.ret
          { ok := false, stdout := "",
            stderr := joinLines (snippet_violations code_str profile cfgFile host),
            returncode := 2, env := detect_environment host,
            profile := get_profile (detect_environment host) profile (load_cfg cfgFile),
            duration_ms := 0 },
         { spawned := none, created := [], removed := [] }) := by
  unfold snippet_violations active_policy at h
  unfold run_snippet
  simp only [h, Bool.false_eq_true, if_false]
  rfl

theorem run_snippet_completed (code_str : String) (profile : Option String)
    (cfgFile : CfgFile) (host : HostSignals) (rc : Int) (out err : String)
    (durMs : Nat) (cp wp : String)
    (h : (snippet_violations code_str profile cfgFile host).isEmpty = true) :
    run_snippet code_str profile cfgFile host (SubprocOutcome.completed rc out err)
        durMs cp wp
      = (PyOutcome.ret
          { ok := rc == 0, stdout := out, stderr := err, returncode := rc,
            env := detect_environment host,
            profile := get_profile (detect_environment host) profile (load_cfg cfgFile),
            duration_ms := durMs },
         { spawned := some (sandboxSpawn wp (cfgExecTimeout (load_cfg cfgFile))),
           created := [cp, wp], removed := [wp, cp] }) := by
  unfold snippet_violations active_policy at h
  unfold run_snippet
  simp only [h, if_true]
  rfl

theorem run_snippet_timeout (code_str : String) (profile : Option String)
    (cfgFile : CfgFile) (host : HostSignals) (po pe : String)
    (durMs : Nat) (cp wp : String)
    (h : (snippet_violations code_str profile cfgFile host).isEmpty = true) :
    run_snippet code_str profile cfgFile host (SubprocOutcome.timedOut po pe)
        durMs cp wp
      = (PyOutcome.ret
          { ok := false, stdout := "",
            stderr := timeoutMsg (cfgExecTimeout (load_cfg cfgFile)),
            returncode := 124, env := detect_environment host,
            profile := get_profile (detect_environment host) profile (load_cfg cfgFile),
            duration_ms := durMs },
         { spawned := some (sandboxSpawn wp (cfgExecTimeout (load_cfg cfgFile))),
           created := [cp, wp], removed := [wp, cp] }) := by
  unfold snippet_violations active_policy at h
  unfold run_snippet
  simp only [h, if_true]
  rfl

theorem run_snippet_exn (code_str : String) (profile : Option String)
    (cfgFile : CfgFile) (host : HostSignals) (e : String)
    (durMs : Nat) (cp wp : String)
    (h : (snippet_violations code_str profile cfgFile host).isEmpty = true) :
    run_snippet code_str profile cfgFile host (SubprocOutcome.raised e) durMs cp wp
      = (PyOutcome.exn e,
         { spawned := some (sandboxSpawn wp (cfgExecTimeout (load_cfg cfgFile))),
           created := [cp, wp], removed := [wp, cp] }) := by
  unfold snippet_violations active_policy at h
  unfold run_snippet
  simp only [h, if_true]
  rfl

theorem run_file_notfound (path : String) (profile : Option String)
    (cfgFile : CfgFile) (host : HostSignals) (fs : FileSys)
    (sub : SubprocOutcome) (durMs : Nat) (wp : String)
    (h : fs.pathExists (fs.resolve path) = false) :
    run_file path profile cfgFile host fs sub durMs wp
      = (PyOutcome.ret
          { ok := false, stdout := "",
            stderr := "File not found: " ++ fs.resolve path,
            returncode := 2, env := detect_environment host,
            profile := get_profile (detect_environment host) profile (load_cfg cfgFile),
            duration_ms := 0 },
         { spawned := none, created := [], removed := [] }) := by
  unfold run_file
  simp only [h, Bool.false_eq_true, if_false]

theorem run_file_reject (path : String) (profile : Option String)
    (cfgFile : CfgFile) (host : HostSignals) (fs : FileSys)
    (sub : SubprocOutcome) (durMs : Nat) (wp : String)
    (hex : fs.pathExists (fs.resolve path) = true)
    (h : (preflight_check (fs.read (fs.resolve path))
        (active_policy profile cfgFile host)).isEmpty = false) :
    run_file path profile cfgFile host fs sub durMs wp
      = (PyOutcome.ret
          { ok := false, stdout := "",
            stderr := joinLines (preflight_check (fs.read (fs.resolve path))
              (active_policy profile cfgFile host)),
            returncode := 2, env := detect_environment host,
            profile := get_profile (detect_environment host) profile (load_cfg cfgFile),
            duration_ms := 0 },
         { spawned := none, created := [], removed := [] }) := by
  unfold active_policy at h
  unfold run_file
  simp only [hex, if_true, h, Bool.false_eq_true, if_false]
  rfl

theorem run_file_completed (path : String) (profile : Option String)
    (cfgFile : CfgFile) (host : HostSignals) (fs : FileSys) (rc : Int)
    (out err : String) (durMs : Nat) (wp : String)
    (hex : fs.pathExists (fs.resolve path) = true)
    (h : (preflight_check (fs.read (fs.resolve path))
        (active_policy profile cfgFile host)).isEmpty = true) :
    run_file path profile cfgFile host fs (SubprocOutcome.completed rc out err)
        durMs wp
      = (PyOutcome.ret
          { ok := rc == 0, stdout := out, stderr := err, returncode := rc,
            env := detect_environment host,
            profile := get_profile (detect_environment host) profile (load_cfg cfgFile),
            duration_ms := durMs },
         { spawned := some (sandboxSpawn wp (cfgExecTimeout (load_cfg cfgFile))),
           created := [wp], removed := [wp] }) := by
  unfold active_policy at h
  unfold run_file
  simp only [hex, if_true, h]
  rfl

theorem run_file_timeout (path : String) (profile : Option String)
    (cfgFile : CfgFile) (host : HostSignals) (fs : FileSys) (po pe : String)
    (durMs : Nat) (wp : String)
    (hex : fs.pathExists (fs.resolve path) = true)
    (h : (preflight_check (fs.read (fs.resolve path))
        (active_policy profile cfgFile host)).isEmpty = true) :
    run_file path profile cfgFile host fs (SubprocOutcome.timedOut po pe) durMs wp
      = (PyOutcome.ret
          { ok := false, stdout := "",
            stderr := timeoutMsg (cfgExecTimeout (load_cfg cfgFile)),
            returncode := 124, env := detect_environment host,
            profile := get_profile (detect_environment host) profile (load_cfg cfgFile),
            duration_ms := durMs },
         { spawned := some (sandboxSpawn wp (cfgExecTimeout (load_cfg cfgFile))),
           created := [wp], removed := [wp] }) := by
  unfold active_policy at h
  unfold run_file
  simp only [hex, if_true, h]
  rfl

theorem run_file_exn (path : String) (profile : Option String)
    (cfgFile : CfgFile) (host : HostSignals) (fs : FileSys) (e : String)
    (durMs : Nat) (wp : String)
    (hex : fs.pathExists (fs.resolve path) = true)
    (h : (preflight_check (fs.read (fs.resolve path))
        (active_policy profile cfgFile host)).isEmpty = true) :
    run_file path profile cfgFile host fs (SubprocOutcome.raised e) durMs wp
      = (PyOutcome.exn e,
         { spawned := some (sandboxSpawn wp (cfgExecTimeout (load_cfg cfgFile))),
           created := [wp], removed := [wp] }) := by
  unfold active_policy at h
  unfold run_file
  simp only [hex, if_true, h]
  rfl

/-! ### Claim C1 -/

/-- **C1.** For every source text with a line that contains an import of
a module root `m` of the active profile's blocked imports (either
`import m…` or `from m import …`, at line start or after any non-word
prefix such as indentation), `run_snippet` returns `ok = false` and
`returncode = 2`, the violation text names that module with its correct
1-based line number and is contained in the returned stderr, and the
process runner is never invoked (no child spawn). -/
theorem C1_blocked_import_rejected
    (code_str m : String) (i : Nat) (profile : Option String)
    (cfgFile : CfgFile) (host : HostSignals) (sub : SubprocOutcome)
    (durMs : Nat) (cp wp : String) (L : List Char)
    (hi : 1 ≤ i)
    (hline : (pySplitlines code_str.data)[i - 1]? = some L)
    (hspec : specImportLine L m)
    (hword : wordish m)
    (hm : m ∈ (active_policy profile cfgFile host).blocked_imports) :
    ∃ d : ExecDict,
      (run_snippet code_str profile cfgFile host sub durMs cp wp).1
          = PyOutcome.ret d
        ∧ d.ok = false
        ∧ d.returncode = 2
        ∧ violationImportMsg m i ∈ snippet_violations code_str profile cfgFile host
        ∧ sublistAt (violationImportMsg m i).data d.stderr.data = true
        ∧ (run_snippet code_str profile cfgFile host sub durMs cp wp).2.spawned
            = none := by
  have hhit := specImportLine_hit L m hword hspec
  have hmem : violationImportMsg m i ∈ snippet_violations code_str profile cfgFile host :=
    violation_mem_preflight code_str (active_policy profile cfgFile host) m i L
      hi hline hm hhit
  have hne : snippet_violations code_str profile cfgFile host ≠ [] :=
    List.ne_nil_of_mem hmem
  have hf : (snippet_violations code_str profile cfgFile host).isEmpty = false := by
    cases hEmp : (snippet_violations code_str profile cfgFile host).isEmpty with
    | false => rfl
    | true => exact absurd (List.isEmpty_iff.mp hEmp) hne
  rw [run_snippet_reject code_str profile cfgFile host sub durMs cp wp hf]
  exact ⟨_, rfl, rfl, rfl, hmem,
    sublistAt_joinLines (violationImportMsg m i) _ hmem, rfl⟩

/-- Witness for C1: `from socket import gethostname` on line 2 under the
default (headless) profile. -/
theorem C1_witness :
    ∃ d : ExecDict,
      (run_snippet "x = 1\nfrom socket import gethostname" none CfgFile.missing
          hostLocal (SubprocOutcome.completed 0 "" "") 0 "user_a.py" "wrap_a.py").1
          = PyOutcome.ret d
        ∧ d.ok = false
        ∧ d.returncode = 2
        ∧ violationImportMsg "socket" 2
            ∈ snippet_violations "x = 1\nfrom socket import gethostname" none
                CfgFile.missing hostLocal
        ∧ sublistAt (violationImportMsg "socket" 2).data d.stderr.data = true
        ∧ (run_snippet "x = 1\nfrom socket import gethostname" none CfgFile.missing
            hostLocal (SubprocOutcome.completed 0 "" "") 0 "user_a.py" "wrap_a.py").2.spawned
            = none :=
  C1_blocked_import_rejected "x = 1\nfrom socket import gethostname" "socket" 2
    none CfgFile.missing hostLocal (SubprocOutcome.completed 0 "" "") 0
    "user_a.py" "wrap_a.py" "from socket import gethostname".data
    (by decide) (by decide)
    (Or.inr ⟨[], " gethostname".data, by decide, by decide⟩)
    ⟨by decide, by decide⟩ (by decide)

/-! ### Claim C2 -/

/-- **C2 (counterexample).** A request that passes preflight is spawned by
the sandbox process runner with no preexec resource-limit hook at all:
the claim that hard ceilings on address space and CPU time are applied to
the child is false for `run_snippet`'s runner. -/
theorem C2_counterexample :
    (snippet_violations "print(40 + 2)" none CfgFile.missing hostLocal).isEmpty = true
    ∧ (run_snippet "print(40 + 2)" none CfgFile.missing hostLocal
          (SubprocOutcome.completed 0 "42\n" "") 3 "user_b.py" "wrap_b.py").2.spawned
        = some (sandboxSpawn "wrap_b.py" 8)
    ∧ (sandboxSpawn "wrap_b.py" 8).preexecLimits = none := by
  exact ⟨by decide, by decide, rfl⟩

/-- **C2 (amended).** The sandbox process runner (`_execute_user_code`,
used by both `run_snippet` and `run_file`) applies no resource ceilings:
every child it spawns has no preexec hook, only a wall-clock timeout and
the minimal environment.  Hard ceilings (`RLIMIT_AS` = 256 MiB,
`RLIMIT_CPU` = 30 s) are installed in the child before exec only by the
direct runner `run_python_script` of `gpt_chat_v3.py`, in both of its
modes. -/
theorem C2_amended :
    (∀ (code_str : String) (profile : Option String) (cfgFile : CfgFile)
        (host : HostSignals) (sub : SubprocOutcome) (durMs : Nat) (cp wp : String)
        (sp : SpawnSpec),
      (run_snippet code_str profile cfgFile host sub durMs cp wp).2.spawned = some sp →
        sp.preexecLimits = none ∧ sp.usesMinimalEnv = true
          ∧ sp.timeoutSec = some (cfgExecTimeout (load_cfg cfgFile)))
    ∧ (∀ (path : String) (profile : Option String) (cfgFile : CfgFile)
        (host : HostSignals) (fs : FileSys) (sub : SubprocOutcome) (durMs : Nat)
        (wp : String) (sp : SpawnSpec),
      (run_file path profile cfgFile host fs sub durMs wp).2.spawned = some sp →
        sp.preexecLimits = none ∧ sp.usesMinimalEnv = true
          ∧ sp.timeoutSec = some (cfgExecTimeout (load_cfg cfgFile)))
    ∧ (∀ (mode : PyExecMode) (bin script : String) (args : List String),
      (run_python_script_spawn mode bin script args).preexecLimits
        = some (256 * 1024 * 1024, 30)) := by
  refine ⟨?_, ?_, ?_⟩
  · intro code_str profile cfgFile host sub durMs cp wp sp h
    cases hf : (snippet_violations code_str profile cfgFile host).isEmpty with
    | false =>
      rw [run_snippet_reject code_str profile cfgFile host sub durMs cp wp hf] at h
      cases h
    | true =>
      cases sub with
      | completed rc out err =>
        rw [run_snippet_completed code_str profile cfgFile host rc out err durMs cp wp hf] at h
        cases h
        exact ⟨rfl, rfl, rfl⟩
      | timedOut po pe =>
        rw [run_snippet_timeout code_str profile cfgFile host po pe durMs cp wp hf] at h
        cases h
        exact ⟨rfl, rfl, rfl⟩
      | raised e =>
        rw [run_snippet_exn code_str profile cfgFile host e durMs cp wp hf] at h
        cases h
        exact ⟨rfl, rfl, rfl⟩
  · intro path profile cfgFile host fs sub durMs wp sp h
    cases hex : fs.pathExists (fs.resolve path) with
    | false =>
      rw [run_file_notfound path profile cfgFile host fs sub durMs wp hex] at h
      cases h
    | true =>
      cases hf : (preflight_check (fs.read (fs.resolve path))
          (active_policy profile cfgFile host)).isEmpty with
      | false =>
        rw [run_file_reject path profile cfgFile host fs sub durMs wp hex hf] at h
        cases h
      | true =>
        cases sub with
        | completed rc out err =>
          rw [run_file_completed path profile cfgFile host fs rc out err durMs wp hex hf] at h
          cases h
          exact ⟨rfl, rfl, rfl⟩
        | timedOut po pe =>
          rw [run_file_timeout path profile cfgFile host fs po pe durMs wp hex hf] at h
          cases h
          exact ⟨rfl, rfl, rfl⟩
        | raised e =>
          rw [run_file_exn path profile cfgFile host fs e durMs wp hex hf] at h
          cases h
          exact ⟨rfl, rfl, rfl⟩
  · intro mode bin script args
    cases mode <;> rfl

/-- Witness for the amended C2, at a concrete passing request and a
concrete direct-runner spawn. -/
theorem C2_amended_witness :
    ((sandboxSpawn "wrap_b.py" 8).preexecLimits = none
      ∧ (sandboxSpawn "wrap_b.py" 8).usesMinimalEnv = true
      ∧ (sandboxSpawn "wrap_b.py" 8).timeoutSec
          = some (cfgExecTimeout (load_cfg CfgFile.missing)))
    ∧ (run_python_script_spawn PyExecMode.capture "python3" "/opt/halbridge/x.py" []).preexecLimits
        = some (256 * 1024 * 1024, 30) :=
  ⟨C2_amended.1 "print(40 + 2)" none CfgFile.missing hostLocal
      (SubprocOutcome.completed 0 "42\n" "") 3 "user_b.py" "wrap_b.py"
      (sandboxSpawn "wrap_b.py" 8) (by decide),
   C2_amended.2.2 PyExecMode.capture "python3" "/opt/halbridge/x.py" []⟩

/-! ### Claim C3 -/

/-- **C3 (counterexample).** On a wall-clock timeout the runner reports
return code 124 with the Timeout marker, but it does *not* return the
partial output the child produced before termination: stdout comes back
empty even though the `TimeoutExpired` carried nonempty partial output,
so the claim's "partial stdout/stderr is collected and returned" is
false. -/
theorem C3_counterexample :
    (snippet_violations "while True: pass" none CfgFile.missing hostLocal).isEmpty = true
    ∧ (run_snippet "while True: pass" none CfgFile.missing hostLocal
          (SubprocOutcome.timedOut "partial child output" "") 8000
          "user_c.py" "wrap_c.py").1
        = PyOutcome.ret
            { ok := false, stdout := "", stderr := "Timeout after 8s",
              returncode := 124, env := detect_environment hostLocal,
              profile := "headless", duration_ms := 8000 }
    ∧ ("partial child output" : String) ≠ ""
    ∧ sublistAt "partial child output".data "".data = false := by
  exact ⟨by decide, by decide, by decide, by decide⟩

/-- **C3 (amended).** On every child execution that exceeds the wall-clock
timeout `T` (taken from the config), the runner returns return code 124
and the error stream `"Timeout after Ts"` — which contains the `Timeout`
marker — while the partial stdout/stderr the child produced before
termination is discarded: stdout comes back empty and the error stream
holds only the timeout message.  (The forcible kill of the child on
timeout is performed inside `subprocess.run` itself.) -/
theorem C3_amended (code_str : String) (profile : Option String)
    (cfgFile : CfgFile) (host : HostSignals) (po pe : String) (durMs : Nat)
    (cp wp : String)
    (h : (snippet_violations code_str profile cfgFile host).isEmpty = true) :
    run_snippet code_str profile cfgFile host (SubprocOutcome.timedOut po pe)
        durMs cp wp
      = (PyOutcome.ret
          { ok := false, stdout := "",
            stderr := timeoutMsg (cfgExecTimeout (load_cfg cfgFile)),
            returncode := 124, env := detect_environment host,
            profile := get_profile (detect_environment host) profile (load_cfg cfgFile),
            duration_ms := durMs },
         { spawned := some (sandboxSpawn wp (cfgExecTimeout (load_cfg cfgFile))),
           created := [cp, wp], removed := [wp, cp] })
      ∧ sublistAt "Timeout".data
          (timeoutMsg (cfgExecTimeout (load_cfg cfgFile))).data = true := by
  refine ⟨run_snippet_timeout code_str profile cfgFile host po pe durMs cp wp h, ?_⟩
  unfold timeoutMsg
  rw [String.data_append, String.data_append,
    show ("Timeout after ".data : List Char) = "Timeout".data ++ " after ".data
      from by decide,
    List.append_assoc, List.append_assoc]
  exact sublistAt_append_left _ _ _ (sublistAt_self _)

/-- Witness for the amended C3 at a concrete looping snippet. -/
theorem C3_amended_witness :
    run_snippet "while True: pass" none CfgFile.missing hostLocal
        (SubprocOutcome.timedOut "some output" "some errors") 8000
        "user_c.py" "wrap_c.py"
      = (PyOutcome.ret
          { ok := false, stdout := "",
            stderr := timeoutMsg (cfgExecTimeout (load_cfg CfgFile.missing)),
            returncode := 124, env := detect_environment hostLocal,
            profile := get_profile (detect_environment hostLocal) none
              (load_cfg CfgFile.missing),
            duration_ms := 8000 },
         { spawned := some (sandboxSpawn "wrap_c.py"
             (cfgExecTimeout (load_cfg CfgFile.missing))),
           created := ["user_c.py", "wrap_c.py"],
           removed := ["wrap_c.py", "user_c.py"] })
      ∧ sublistAt "Timeout".data
          (timeoutMsg (cfgExecTimeout (load_cfg CfgFile.missing))).data = true :=
  C3_amended "while True: pass" none CfgFile.missing hostLocal
    "some output" "some errors" 8000 "user_c.py" "wrap_c.py" (by decide)

/-! ### Claim C4 -/

theorem blockedImportErrMsg_marked (root : String) :
    isBlockedImportErr (blockedImportErrMsg root) = true := by
  unfold isBlockedImportErr blockedImportErrMsg
  rw [show ("SandboxViolation: blocked import " ++ sq ++ root ++ sq)
      = ("SandboxViolation: blocked import " ++ sq) ++ (root ++ sq) from by
    simp [String.append_assoc]]
  rw [String.data_append]
  exact startsWithAt_zero _ _

/-- **C4 (counterexample).** The wrapper exits with sentinel code 2 for
*any* uncaught `ImportError`, not exactly for the distinguishable
blocked-import error: an ordinary missing-module error also produces exit
code 2, although it is not the sandbox's marked error. -/
theorem C4_counterexample :
    (wrapperRun (TargetOutcome.importError noModuleMsg)).exitCode = 2
    ∧ isBlockedImportErr noModuleMsg = false
    ∧ (∀ root, noModuleMsg ≠ blockedImportErrMsg root) := by
  refine ⟨rfl, by decide, ?_⟩
  intro root h
  have h1 := blockedImportErrMsg_marked root
  rw [← h] at h1
  have h2 : isBlockedImportErr noModuleMsg = false := by decide
  rw [h1] at h2
  cases h2

/-- **C4 (amended).** The wrapper exits with sentinel code 2 (after
writing the error message to stderr) exactly when the run fails with an
uncaught `ImportError` — a class that contains the distinguishable
blocked-import error (whose message always carries the sandbox marker)
but also ordinary import failures; any other uncaught exception makes
the wrapper print the traceback to stderr and exit with sentinel code 1;
and every modelled abnormal path yields a nonzero exit code together
with nonempty diagnostic text on stderr, never a silent success. -/
theorem C4_amended :
    (∀ msg, wrapperRun (TargetOutcome.importError msg)
        = { exitCode := 2, stderrText := msg ++ "\n" })
    ∧ (∀ o, (wrapperRun o).exitCode = 2 ↔ ∃ msg, o = TargetOutcome.importError msg)
    ∧ (∀ root, isBlockedImportErr (blockedImportErrMsg root) = true)
    ∧ (∀ detail, wrapperRun (TargetOutcome.raisesOther detail)
        = { exitCode := 1, stderrText := tracebackHeader ++ detail })
    ∧ (∀ o, o ≠ TargetOutcome.completes →
        (wrapperRun o).exitCode ≠ 0 ∧ (wrapperRun o).stderrText ≠ "") := by
  refine ⟨fun msg => rfl, ?_, blockedImportErrMsg_marked, fun detail => rfl, ?_⟩
  · intro o
    cases o with
    | completes => simp [wrapperRun]
    | importError msg => simp [wrapperRun]
    | raisesOther detail => simp [wrapperRun]
  · intro o ho
    cases o with
    | completes => exact absurd rfl ho
    | importError msg =>
      refine ⟨by simp [wrapperRun], ?_⟩
      intro hh
      have := congrArg String.data hh
      simp [wrapperRun, String.data_append] at this
    | raisesOther detail =>
      refine ⟨by simp [wrapperRun], ?_⟩
      intro hh
      have := congrArg String.data hh
      simp [wrapperRun, tracebackHeader, String.data_append] at this

/-- Witness for the amended C4: a division-by-zero failure exits 1 with a
traceback; a blocked import exits 2 with the marked message. -/
theorem C4_amended_witness :
    ((wrapperRun (TargetOutcome.raisesOther "ZeroDivisionError: division by zero")).exitCode ≠ 0
      ∧ (wrapperRun (TargetOutcome.raisesOther "ZeroDivisionError: division by zero")).stderrText ≠ "")
    ∧ ((wrapperRun (TargetOutcome.importError (blockedImportErrMsg "socket"))).exitCode = 2
        ↔ ∃ msg, TargetOutcome.importError (blockedImportErrMsg "socket")
            = TargetOutcome.importError msg) :=
  ⟨C4_amended.2.2.2.2 (TargetOutcome.raisesOther "ZeroDivisionError: division by zero")
      (by decide),
   C4_amended.2.1 (TargetOutcome.importError (blockedImportErrMsg "socket"))⟩

/-! ### Claim C5 -/

/-- **C5.** For every result dict returned by `run_snippet` or
`run_file`, `ok` is `true` exactly when `returncode = 0` and the
preflight violation list of that request is empty. -/
theorem C5_ok_iff
    (code_str path : String) (profile : Option String) (cfgFile : CfgFile)
    (host : HostSignals) (fs : FileSys) (sub : SubprocOutcome) (durMs : Nat)
    (cp wp : String) :
    (∀ d : ExecDict,
      (run_snippet code_str profile cfgFile host sub durMs cp wp).1
          = PyOutcome.ret d →
        (d.ok = true ↔ d.returncode = 0
          ∧ snippet_violations code_str profile cfgFile host = []))
    ∧ (∀ d : ExecDict,
      (run_file path profile cfgFile host fs sub durMs wp).1 = PyOutcome.ret d →
        (d.ok = true ↔ d.returncode = 0
          ∧ run_file_violations path profile cfgFile host fs = [])) := by
  constructor
  · intro d h
    cases hf : (snippet_violations code_str profile cfgFile host).isEmpty with
    | false =>
      rw [run_snippet_reject code_str profile cfgFile host sub durMs cp wp hf] at h
      injection h with hd
      subst hd
      simp
    | true =>
      have hnil := List.isEmpty_iff.mp hf
      cases sub with
      | completed rc out err =>
        rw [run_snippet_completed code_str profile cfgFile host rc out err durMs cp wp hf] at h
        injection h with hd
        subst hd
        simp [hnil, beq_iff_eq]
      | timedOut po pe =>
        rw [run_snippet_timeout code_str profile cfgFile host po pe durMs cp wp hf] at h
        injection h with hd
        subst hd
        simp
      | raised e =>
        rw [run_snippet_exn code_str profile cfgFile host e durMs cp wp hf] at h
        cases h
  · intro d h
    cases hex : fs.pathExists (fs.resolve path) with
    | false =>
      rw [run_file_notfound path profile cfgFile host fs sub durMs wp hex] at h
      injection h with hd
      subst hd
      simp
    | true =>
      cases hf : (preflight_check (fs.read (fs.resolve path))
          (active_policy profile cfgFile host)).isEmpty with
      | false =>
        rw [run_file_reject path profile cfgFile host fs sub durMs wp hex hf] at h
        injection h with hd
        subst hd
        simp
      | true =>
        have hnil := List.isEmpty_iff.mp hf
        cases sub with
        | completed rc out err =>
          rw [run_file_completed path profile cfgFile host fs rc out err durMs wp hex hf] at h
          injection h with hd
          subst hd
          simp [run_file_violations, hex, hnil, beq_iff_eq]
        | timedOut po pe =>
          rw [run_file_timeout path profile cfgFile host fs po pe durMs wp hex hf] at h
          injection h with hd
          subst hd
          simp
        | raised e =>
          rw [run_file_exn path profile cfgFile host fs e durMs wp hex hf] at h
          cases h

/-- Witness for C5 at a concrete passing snippet that exits 0. -/
theorem C5_witness :
    ({ ok := (0 : Int) == 0, stdout := "hello\n", stderr := "",
       returncode := 0, env := detect_environment hostLocal,
       profile := get_profile (detect_environment hostLocal) none
         (load_cfg CfgFile.missing),
       duration_ms := 5 } : ExecDict).ok = true
      ↔ ({ ok := (0 : Int) == 0, stdout := "hello\n", stderr := "",
           returncode := 0, env := detect_environment hostLocal,
           profile := get_profile (detect_environment hostLocal) none
             (load_cfg CfgFile.missing),
           duration_ms := 5 } : ExecDict).returncode = 0
        ∧ snippet_violations "print(1)" none CfgFile.missing hostLocal = [] :=
  (C5_ok_iff "print(1)" "unused" none CfgFile.missing hostLocal homeOnlyFs
      (SubprocOutcome.completed 0 "hello\n" "") 5 "user_f.py" "wrap_f.py").1
    _ (by decide)

/-! ### Claim C6 -/

/-- **C6.** Every temporary artifact a request creates (the wrapper file
and, for snippets, the copy of the user's source) has been removed by the
time `run_snippet` / `run_file` returns, on every exit path: preflight
rejection (nothing was created), normal completion, timeout, and an
exception inside the runner. -/
theorem C6_temp_cleanup
    (code_str path : String) (profile : Option String) (cfgFile : CfgFile)
    (host : HostSignals) (fs : FileSys) (sub : SubprocOutcome) (durMs : Nat)
    (cp wp : String) :
    (∀ f, f ∈ (run_snippet code_str profile cfgFile host sub durMs cp wp).2.created →
        f ∈ (run_snippet code_str profile cfgFile host sub durMs cp wp).2.removed)
    ∧ (∀ f, f ∈ (run_file path profile cfgFile host fs sub durMs wp).2.created →
        f ∈ (run_file path profile cfgFile host fs sub durMs wp).2.removed) := by
  constructor
  · intro f hmem
    cases hf : (snippet_violations code_str profile cfgFile host).isEmpty with
    | false =>
      rw [run_snippet_reject code_str profile cfgFile host sub durMs cp wp hf] at hmem ⊢
      simp at hmem
    | true =>
      cases sub with
      | completed rc out err =>
        rw [run_snippet_completed code_str profile cfgFile host rc out err durMs cp wp hf] at hmem ⊢
        simp at hmem ⊢
        tauto
      | timedOut po pe =>
        rw [run_snippet_timeout code_str profile cfgFile host po pe durMs cp wp hf] at hmem ⊢
        simp at hmem ⊢
        tauto
      | raised e =>
        rw [run_snippet_exn code_str profile cfgFile host e durMs cp wp hf] at hmem ⊢
        simp at hmem ⊢
        tauto
  · intro f hmem
    cases hex : fs.pathExists (fs.resolve path) with
    | false =>
      rw [run_file_notfound path profile cfgFile host fs sub durMs wp hex] at hmem ⊢
      simp at hmem
    | true =>
      cases hf : (preflight_check (fs.read (fs.resolve path))
          (active_policy profile cfgFile host)).isEmpty with
      | false =>
        rw [run_file_reject path profile cfgFile host fs sub durMs wp hex hf] at hmem ⊢
        simp at hmem
      | true =>
        cases sub with
        | completed rc out err =>
          rw [run_file_completed path profile cfgFile host fs rc out err durMs wp hex hf] at hmem ⊢
          simpa using hmem
        | timedOut po pe =>
          rw [run_file_timeout path profile cfgFile host fs po pe durMs wp hex hf] at hmem ⊢
          simpa using hmem
        | raised e =>
          rw [run_file_exn path profile cfgFile host fs e durMs wp hex hf] at hmem ⊢
          simpa using hmem

/-- Witness for C6: the snippet copy is removed even when the runner
raises an internal exception. -/
theorem C6_witness :
    "user_g.py" ∈ (run_snippet "print(1)" none CfgFile.missing hostLocal
        (SubprocOutcome.raised "OSError: no space left on device") 0
        "user_g.py" "wrap_g.py").2.removed :=
  (C6_temp_cleanup "print(1)" "unused" none CfgFile.missing hostLocal homeOnlyFs
      (SubprocOutcome.raised "OSError: no space left on device") 0
      "user_g.py" "wrap_g.py").1 "user_g.py" (by decide)

/-! ### Claim C7 -/

/-- **C7 (counterexample).** `run_file` on a nonexistent path reports the
*resolved* path, not the requested one: for the requested path
`~/missing.py` (with home `/root`, no symlinks) the message is
`File not found: /root/missing.py`, which does not contain the requested
path, refuting "an error message containing the requested path". -/
theorem C7_counterexample :
    homeOnlyFs.pathExists (homeOnlyFs.resolve "~/missing.py") = false
    ∧ (run_file "~/missing.py" none CfgFile.missing hostLocal homeOnlyFs
          (SubprocOutcome.completed 0 "" "") 0 "wrap_e.py").1
        = PyOutcome.ret
            { ok := false, stdout := "",
              stderr := "File not found: /root/missing.py", returncode := 2,
              env := detect_environment hostLocal, profile := "headless",
              duration_ms := 0 }
    ∧ sublistAt "~/missing.py".data "File not found: /root/missing.py".data
        = false := by
  exact ⟨rfl, by decide, by decide⟩

/-- **C7 (amended).** For every path whose resolved form
(`expanduser` + `resolve`) does not exist, `run_file` returns
`ok = false`, `returncode = 2`, the message
`File not found: <resolved path>` — which contains the resolved path,
and hence the requested path verbatim whenever resolution leaves it
unchanged — and the process runner is never invoked. -/
theorem C7_amended (path : String) (profile : Option String)
    (cfgFile : CfgFile) (host : HostSignals) (fs : FileSys)
    (sub : SubprocOutcome) (durMs : Nat) (wp : String)
    (h : fs.pathExists (fs.resolve path) = false) :
    run_file path profile cfgFile host fs sub durMs wp
      = (PyOutcome.ret
          { ok := false, stdout := "",
            stderr := "File not found: " ++ fs.resolve path,
            returncode := 2, env := detect_environment host,
            profile := get_profile (detect_environment host) profile (load_cfg cfgFile),
            duration_ms := 0 },
         { spawned := none, created := [], removed := [] })
      ∧ sublistAt (fs.resolve path).data
          ("File not found: " ++ fs.resolve path).data = true := by
  refine ⟨run_file_notfound path profile cfgFile host fs sub durMs wp h, ?_⟩
  rw [String.data_append]
  exact sublistAt_append_right _ _ _ (sublistAt_self _)

/-- Witness for the amended C7 at the concrete nonexistent `~`-path. -/
theorem C7_amended_witness :
    run_file "~/missing.py" none CfgFile.missing hostLocal homeOnlyFs
        (SubprocOutcome.completed 0 "" "") 0 "wrap_e.py"
      = (PyOutcome.ret
          { ok := false, stdout := "",
            stderr := "File not found: " ++ homeOnlyFs.resolve "~/missing.py",
            returncode := 2, env := detect_environment hostLocal,
            profile := get_profile (detect_environment hostLocal) none
              (load_cfg CfgFile.missing),
            duration_ms := 0 },
         { spawned := none, created := [], removed := [] })
      ∧ sublistAt (homeOnlyFs.resolve "~/missing.py").data
          ("File not found: " ++ homeOnlyFs.resolve "~/missing.py").data = true :=
  C7_amended "~/missing.py" none CfgFile.missing hostLocal homeOnlyFs
    (SubprocOutcome.completed 0 "" "") 0 "wrap_e.py" rfl

/-! ### Claim C8 -/

/-- **C8.** Configuration loading merges the persisted config over the
built-in defaults by deep merge: a key absent from the override leaves
the default binding untouched (so sibling subtrees survive), a
present override replaces exactly the value it names (recursively for
dict-against-dict, wholesale otherwise); a missing config file yields the
defaults and is created from them; an unparsable file and a parsable
non-dict both fall back to the defaults, with no exception reaching the
caller (`load_cfg` is total). -/
theorem C8_config_loading :
    (load_cfg CfgFile.missing = DEFAULT_CFG
      ∧ load_cfg_fileAfter CfgFile.missing = CfgFile.parsed DEFAULT_CFG)
    ∧ (load_cfg CfgFile.malformed = DEFAULT_CFG
      ∧ load_cfg_fileAfter CfgFile.malformed = CfgFile.malformed)
    ∧ (∀ (j : Json) (e : String), mergeData j = Except.error e →
        load_cfg (CfgFile.parsed j) = DEFAULT_CFG)
    ∧ (∀ dst src k, k ∉ src.map Prod.fst →
        lookupJ (deepMergePairs dst src) k = lookupJ dst k)
    ∧ (∀ dst src k v, (src.map Prod.fst).Nodup → lookupJ src k = some v →
        ((∀ w, lookupJ dst k ≠ some (Json.obj w)) ∨ (∀ s, v ≠ Json.obj s)) →
        lookupJ (deepMergePairs dst src) k = some v)
    ∧ (∀ dst src k s w, (src.map Prod.fst).Nodup →
        lookupJ src k = some (Json.obj s) → lookupJ dst k = some (Json.obj w) →
        lookupJ (deepMergePairs dst src) k
          = some (Json.obj (deepMergePairs w s))) := by
  refine ⟨⟨rfl, rfl⟩, ⟨rfl, rfl⟩, ?_, deepMergePairs_lookup_not_mem,
    deepMergePairs_lookup_override, deepMergePairs_lookup_obj⟩
  intro j e h
  show (match mergeData j with
    | Except.ok m => m
    | Except.error _ => DEFAULT_CFG) = DEFAULT_CFG
  rw [h]

/-- Witness for C8: a parsable non-dict recovers to defaults; an override
of `policy_overrides.headless.blocked_imports` leaves the top-level
sibling `exec_timeout_sec` untouched and, inside the headless profile,
replaces `blocked_imports` wholesale while we can read the preserved
sibling through the not-mem rule. -/
theorem C8_witness :
    load_cfg (CfgFile.parsed (Json.arr [Json.num 1])) = DEFAULT_CFG
    ∧ lookupJ (deepMergePairs DEFAULT_CFG_pairs
        [("policy_overrides", Json.obj
          [("headless", Json.obj
            [("blocked_imports", Json.arr [Json.str "json"])])])])
        "exec_timeout_sec" = lookupJ DEFAULT_CFG_pairs "exec_timeout_sec"
    ∧ lookupJ (deepMergePairs
        [("blocked_imports", Json.arr
           [Json.str "matplotlib", Json.str "tkinter", Json.str "pygame",
            Json.str "requests", Json.str "socket"]),
         ("blocked_calls", Json.arr [Json.str "os.system"])]
        [("blocked_imports", Json.arr [Json.str "json"])])
        "blocked_imports" = some (Json.arr [Json.str "json"])
    ∧ lookupJ (deepMergePairs
        [("blocked_imports", Json.arr
           [Json.str "matplotlib", Json.str "tkinter", Json.str "pygame",
            Json.str "requests", Json.str "socket"]),
         ("blocked_calls", Json.arr [Json.str "os.system"])]
        [("blocked_imports", Json.arr [Json.str "json"])])
        "blocked_calls" = some (Json.arr [Json.str "os.system"]) := by
  refine ⟨C8_config_loading.2.2.1 (Json.arr [Json.num 1]) "AttributeError" rfl,
    C8_config_loading.2.2.2.1 _ _ _ (by decide),
    ?_, ?_⟩
  · refine C8_config_loading.2.2.2.2.1 _ _ _ _ (by decide) rfl (Or.inr ?_)
    intro s hs
    cases hs
  · exact (C8_config_loading.2.2.2.1 _ _ _ (by decide)).trans rfl

/-! ### Claim C9 -/

/-- **C9 (counterexample).** Profile resolution ignores the environment
descriptor: with no caller-supplied name, a network-capable remote
session and a quiet offline host resolve to the *same* profile
(`headless`, the config default), so no environment-derived stricter
mapping exists; moreover a supplied name is returned even when it is
unknown to the overrides table. -/
theorem C9_counterexample :
    detect_environment hostRemote ≠ detect_environment hostLocal
    ∧ (detect_environment hostRemote).is_ssh = true
    ∧ (detect_environment hostLocal).is_ssh = false
    ∧ get_profile (detect_environment hostRemote) none DEFAULT_CFG = "headless"
    ∧ get_profile (detect_environment hostLocal) none DEFAULT_CFG = "headless"
    ∧ get_profile (detect_environment hostLocal) (some "bogus_profile") DEFAULT_CFG
        = "bogus_profile"
    ∧ overridesHasProfile DEFAULT_CFG "bogus_profile" = false := by
  decide

/-- **C9 (amended).** `get_profile` never consults the environment
descriptor: it returns the caller-supplied name whenever one is given
and nonempty (known to the overrides table or not), and otherwise the
config's `profile` field (default `headless`); an empty override string
also falls back to the config default. -/
theorem C9_amended :
    (∀ env env' ov cfg, get_profile env ov cfg = get_profile env' ov cfg)
    ∧ (∀ env s cfg, s ≠ "" → get_profile env (some s) cfg = s)
    ∧ (∀ env cfg, get_profile env none cfg = cfgProfileDefault cfg)
    ∧ (∀ env cfg, get_profile env (some "") cfg = cfgProfileDefault cfg) := by
  refine ⟨fun env env' ov cfg => ?_, fun env s cfg hs => ?_,
    fun env cfg => rfl, fun env cfg => ?_⟩
  · cases ov with
    | none => rfl
    | some s => rfl
  · show (if s = "" then cfgProfileDefault cfg else s) = s
    rw [if_neg hs]
  · show (if ("" : String) = "" then cfgProfileDefault cfg else "")
        = cfgProfileDefault cfg
    rw [if_pos rfl]

/-- Witness for the amended C9 with the known profile name `iot`. -/
theorem C9_amended_witness :
    get_profile (detect_environment hostLocal) (some "iot") DEFAULT_CFG = "iot" :=
  C9_amended.2.1 (detect_environment hostLocal) "iot" DEFAULT_CFG (by decide)

/-! ### Claim C10 -/

/-- **C10.** Every profile name absent from the config's
`policy_overrides` table resolves to a policy with empty
`blocked_imports` and `blocked_calls`; preflight then returns the empty
violation list for every source text, the wrapper's import finder blocks
no module and `os.system` is left unpatched — and a nonempty unknown
name is passed through by `get_profile` rather than rejected or replaced
by a default. -/
theorem C10_unknown_profile_disables_policy (cfg : Json) (prof : String)
    (env : EnvDesc) (h : overridesHasProfile cfg prof = false) :
    policy_for_profile prof cfg = { blocked_imports := [], blocked_calls := [] }
    ∧ (∀ code_str, preflight_check code_str (policy_for_profile prof cfg) = [])
    ∧ (∀ name, finderBlocks (policy_for_profile prof cfg) name = false)
    ∧ osSystemPatched (policy_for_profile prof cfg) = false
    ∧ (prof ≠ "" → get_profile env (some prof) cfg = prof) := by
  have hpol : policy_for_profile prof cfg
      = { blocked_imports := [], blocked_calls := [] } := by
    unfold overridesHasProfile at h
    unfold policy_for_profile
    rcases hov : cfgGet cfg "policy_overrides" with _ | j
    · rfl
    · rw [hov] at h
      cases j with
      | obj ov =>
        have h' : (lookupJ ov prof).isSome = false := h
        have hnone : lookupJ ov prof = none := by
          cases hl : lookupJ ov prof with
          | none => rfl
          | some v => rw [hl] at h'; simp at h'
        show (match lookupJ ov prof with
          | some (Json.obj pp) =>
            ({ blocked_imports := strList (lookupJ pp "blocked_imports"),
               blocked_calls := strList (lookupJ pp "blocked_calls") } : SecurityPolicy)
          | _ => { blocked_imports := [], blocked_calls := [] })
            = { blocked_imports := [], blocked_calls := [] }
        rw [hnone]
      | null => rfl
      | bool b => rfl
      | num n => rfl
      | str t => rfl
      | arr xs => rfl
  refine ⟨hpol, ?_, ?_, ?_, ?_⟩
  · intro code_str
    rw [hpol]
    unfold preflight_check
    exact concatMap_eq_nil fun a ha => rfl
  · intro name
    rw [hpol]
    rfl
  · rw [hpol]
    rfl
  · intro hp
    show (if prof = "" then cfgProfileDefault cfg else prof) = prof
    rw [if_neg hp]

/-- Witness for C10 with the misspelled profile hint `anallysis` against
the built-in defaults. -/
theorem C10_witness :
    policy_for_profile "anallysis" DEFAULT_CFG
        = { blocked_imports := [], blocked_calls := [] }
    ∧ preflight_check "import socket" (policy_for_profile "anallysis" DEFAULT_CFG) = []
    ∧ finderBlocks (policy_for_profile "anallysis" DEFAULT_CFG) "socket.socket" = false
    ∧ osSystemPatched (policy_for_profile "anallysis" DEFAULT_CFG) = false
    ∧ get_profile (detect_environment hostLocal) (some "anallysis") DEFAULT_CFG
        = "anallysis" :=
  have h := C10_unknown_profile_disables_policy DEFAULT_CFG "anallysis"
    (detect_environment hostLocal) (by decide)
  ⟨h.1, h.2.1 "import socket", h.2.2.1 "socket.socket", h.2.2.2.1,
    h.2.2.2.2 (by decide)⟩

end HalBridge
